import Mathlib

/-! Verification of the plappy signal-graph runtime against its
specification.

The Python source is shallowly embedded: the mutable object graph becomes
explicit state records, numpy arrays become entries of an array heap keyed
by allocation order (so array identity is identity of heap keys), Python
sets become `Finset Nat`, and code that raises exceptions returns `Except`
or `Option` values.  Every definition follows the corresponding function of
the source tree (`plappy/samplebuffer.py`, `plappy/io.py`,
`plappy/devices.py`, `plappy/patch.py`) unless its doc comment says it is
modelled from the spec because the code is not part of the repository
sources.
-/

namespace Plappy

/-- Content of a numpy array slot in the array heap.  `np.copy(None)`
produces a zero-dimensional object array rather than a numeric buffer;
that outcome is modelled by the `fromNone` constructor. -/
inductive ArrData where
  | fromNone
  | data (vals : List Int)
deriving DecidableEq

/-- Pointwise update of a `Nat`-indexed map, used for every mutation of a
heap or of an object field. -/
def upd {β : Sort u} (f : Nat → β) (i : Nat) (v : β) : Nat → β :=
  fun j => if j = i then v else f j

/-- Heap of `SampleBuffer` objects (`plappy/samplebuffer.py`).

`arrData` is the heap of numpy arrays (identity of arrays is identity of
their `Nat` keys); `bufArr` gives each buffer handle its `array` field
(`none` models Python `None`); `bufRef` gives each handle the key of the
set object stored in its `refs` field, and `refSet` is the heap of those
set objects.  Python rebinding `self.refs = {self}` allocates a fresh set
object, hence the `nextRef` counter. -/
structure BufMem where
  nextArr : Nat
  arrData : Nat → ArrData
  nextBuf : Nat
  bufArr : Nat → Option Nat
  bufRef : Nat → Nat
  nextRef : Nat
  refSet : Nat → Finset Nat

/-- Allocation of a fresh numpy array with the given content.  This models
the creation of an array by code outside `SampleBuffer` (a generator or
`np.copy`); `SampleBuffer` itself never copies outside
`prepare_to_modify`. -/
def allocArray (m : BufMem) (d : ArrData) : Nat × BufMem :=
  (m.nextArr,
    { m with nextArr := m.nextArr + 1, arrData := upd m.arrData m.nextArr d })

/-- `SampleBuffer.__init__` with `other=None`: `array = None`,
`refs = set()`, `refs.add(self)`. -/
def sbInit (m : BufMem) : Nat × BufMem :=
  (m.nextBuf,
    { m with
      nextBuf := m.nextBuf + 1
      nextRef := m.nextRef + 1
      bufArr := upd m.bufArr m.nextBuf none
      bufRef := upd m.bufRef m.nextBuf m.nextRef
      refSet := upd m.refSet m.nextRef {m.nextBuf} })

/-- `SampleBuffer.__init__` with `other` a buffer: `array = other.array`,
`refs = other.refs` (the same set object), `refs.add(self)`. -/
def sbShare (m : BufMem) (other : Nat) : Nat × BufMem :=
  (m.nextBuf,
    { m with
      nextBuf := m.nextBuf + 1
      bufArr := upd m.bufArr m.nextBuf (m.bufArr other)
      bufRef := upd m.bufRef m.nextBuf (m.bufRef other)
      refSet := upd m.refSet (m.bufRef other)
        (insert m.nextBuf (m.refSet (m.bufRef other))) })

/-- `SampleBuffer.from_array`: a fresh buffer whose `array` field is set to
the given (already existing) array, with no copy. -/
def from_array (m : BufMem) (a : Nat) : Nat × BufMem :=
  let bm := sbInit m
  (bm.1, { bm.2 with bufArr := upd bm.2.bufArr bm.1 (some a) })

/-- `SampleBuffer.destroy`: `self.array = None`; `if self in self.refs:
self.refs.remove(self)` (removal from the old shared set object, a no-op
when absent, which `Finset.erase` matches exactly); then
`self.refs = {self}` rebinds `refs` to a freshly allocated set object. -/
def destroy (m : BufMem) (b : Nat) : BufMem :=
  let r := m.bufRef b
  let erased := upd m.refSet r ((m.refSet r).erase b)
  { m with
    bufArr := upd m.bufArr b none
    bufRef := upd m.bufRef b m.nextRef
    nextRef := m.nextRef + 1
    refSet := upd erased m.nextRef {b} }

/-- Content produced by `np.copy(self.array)`: a copy of the stored data,
or a non-numeric object array when `self.array` is `None`. -/
def npCopySrc (m : BufMem) (o : Option Nat) : ArrData :=
  match o with
  | some a => m.arrData a
  | none => ArrData.fromNone

/-- `SampleBuffer.prepare_to_modify`: when `len(self.refs) > 1`, copy the
array (`temp = np.copy(self.array)`), call `destroy`, and store the copy
back into `self.array`; otherwise do nothing. -/
def prepare_to_modify (m : BufMem) (b : Nat) : BufMem :=
  if 1 < (m.refSet (m.bufRef b)).card then
    let tm := allocArray m (npCopySrc m (m.bufArr b))
    let m2 := destroy tm.2 b
    { m2 with bufArr := upd m2.bufArr b (some tm.1) }
  else m

/-- `SampleBuffer.empty`: `self.array is None and len(self.refs) == 1`. -/
def sbEmpty (m : BufMem) (b : Nat) : Bool :=
  decide (m.bufArr b = none) && decide ((m.refSet (m.bufRef b)).card = 1)

/-- The empty buffer heap, before any `SampleBuffer` has been created. -/
def memInit : BufMem :=
  { nextArr := 0
    arrData := fun _ => ArrData.fromNone
    nextBuf := 0
    bufArr := fun _ => none
    bufRef := fun _ => 0
    nextRef := 0
    refSet := fun _ => ∅ }

/-! Section: port connection graph (`plappy/io.py`, `plappy/core.py`)

Ports are identified by `Nat`.  Every concrete port of the program is an
`Input` or an `Output` (instances of the abstract base `IO` are not
created), so a port is characterised by its kind and its `connections`
set.  `has_connector` is `False` for `IO` objects, so the
`conn.has_connector()` branch of `IO.connect` and the connector logic of
`Connectable.connect` never fire for port-to-port connections and are not
part of the embedding; `Connectable.connect` then simply returns `conn`.
-/

/-- Deterministic enumeration of a Python `set` of ports for the loops of
`IO.connect` and `IO.push`: the ascending enumeration of the `Finset`.
The CPython iteration order is unspecified; none of the modelled
behaviours depends on it (checks raise independently of order, and loads
to distinct targets commute up to allocation numbering).  Implemented with
`insertionSort`, which the kernel can evaluate. -/
def msetList (v : Multiset Nat) : List Nat :=
  Quot.liftOn v (fun l => l.insertionSort (· ≤ ·)) fun _ _ h =>
    List.eq_of_perm_of_sorted
      ((List.perm_insertionSort _ _).trans (h.trans (List.perm_insertionSort _ _).symm))
      (List.sorted_insertionSort _ _) (List.sorted_insertionSort _ _)

def setList (s : Finset Nat) : List Nat :=
  msetList s.val

theorem mem_msetList {v : Multiset Nat} {a : Nat} : a ∈ msetList v ↔ a ∈ v :=
  Quot.inductionOn v fun l => by
    show a ∈ List.insertionSort (fun x y => x ≤ y) l ↔ a ∈ (l : Multiset Nat)
    rw [List.mem_insertionSort]
    simp

theorem mem_setList {s : Finset Nat} {a : Nat} : a ∈ setList s ↔ a ∈ s :=
  mem_msetList

inductive IOKind where
  | input
  | output
deriving DecidableEq

/-- The two `ConnectionError` classes that the connect path can raise:
`SelfConnectionError` from `IO.connect_check` and the plain
`ConnectionError` from `Output.connect_check`.  Both are subclasses of
`ConnectionError`. -/
inductive ConnErr where
  | selfConnection
  | twoOutputs
deriving DecidableEq

/-- State of the port graph: the kind of every port (fixed at
construction) and the `connections` field of every port. -/
structure GState where
  kind : Nat → IOKind
  conns : Nat → Finset Nat

/-- `connect_check(self=x, conn=y)`: `IO.connect_check` raises
`SelfConnectionError` when `conn is self`; on top of that,
`Output.connect_check` raises `ConnectionError` when `self` is an `Output`
and `conn` is an instance of the same `Output` type.  `Input` adds no
check of its own.  The result is `some e` when the Python call raises
`e` and `none` when it returns normally. -/
def connect_check (k : Nat → IOKind) (x y : Nat) : Option ConnErr :=
  if y = x then some ConnErr.selfConnection
  else if k x = IOKind.output ∧ k y = IOKind.output then some ConnErr.twoOutputs
  else none

/-- First raised error of two sequential checks: Python executes the first
check and only reaches the second when the first returns normally. -/
def ofirst (x y : Option ConnErr) : Option ConnErr :=
  match x with
  | some e => some e
  | none => y

/-- Inner loop of `IO.connect`: `for connection_2 in connection_union: if
connection is not connection_2: connection.connect_check(connection_2);
connection_2.connect_check(connection)`. -/
def pairCheck (k : Nat → IOKind) (c : Nat) : List Nat → Option ConnErr
  | [] => none
  | c2 :: rest =>
    if c = c2 then pairCheck k c rest
    else ofirst (connect_check k c c2)
      (ofirst (connect_check k c2 c) (pairCheck k c rest))

/-- Outer loop of `IO.connect` over `connection_union`: for each member,
the pairwise loop, then `self.connect_check(connection)`,
`conn.connect_check(connection)`, `connection.connect_check(self)`,
`connection.connect_check(conn)`. -/
def unionLoop (k : Nat → IOKind) (a b : Nat) (full : List Nat) :
    List Nat → Option ConnErr
  | [] => none
  | c :: rest =>
    ofirst (pairCheck k c full)
      (ofirst (connect_check k a c)
        (ofirst (connect_check k b c)
          (ofirst (connect_check k c a)
            (ofirst (connect_check k c b) (unionLoop k a b full rest)))))

/-- `IO.connected`: `super().connected(io) or io in self.connections`,
where the `Connectable` implementation returns `False`. -/
def connected (g : GState) (p q : Nat) : Bool :=
  decide (q ∈ g.conns p)

/-- `IO.connect(self=a, conn=b)`.  Early return when already connected or
`conn is self`; then `connect_check` both ways; then the union
re-validation loop (a Python `set` is iterated, modelled by the sorted
enumeration of the `Finset`; whether an error is raised does not depend on
the order); on success the commit: `self.connections` and
`conn.connections` become copies of the union with the partner added, and
every member of the union gets `self` and `conn` added.  An `Except.error`
result models the exception propagating with every object left as it
was. -/
def connect (g : GState) (a b : Nat) : Except ConnErr GState :=
  if connected g a b = true ∨ b = a then Except.ok g
  else
    match ofirst (connect_check g.kind a b) (connect_check g.kind b a) with
    | some e => Except.error e
    | none =>
      let u := g.conns b ∪ g.conns a
      let ul := setList u
      match unionLoop g.kind a b ul ul with
      | some e => Except.error e
      | none =>
        let after1 := upd (upd g.conns a (insert b u)) b (insert a u)
        let after2 := fun p =>
          if p ∈ u then insert a (insert b (after1 p)) else after1 p
        Except.ok { g with conns := after2 }

/-- `IO.disconnected`: `super().disconnected() or len(self.connections) ==
0`, where the `Connectable` implementation returns `False`. -/
def disconnected (g : GState) (p : Nat) : Bool :=
  decide ((g.conns p).card = 0)

/-- `IO.disconnect`: no-op when already disconnected; otherwise every
partner's set loses `p` (`connection.connections.remove(self)`, which on a
symmetric graph always finds `p`, so `Finset.erase` coincides with
`remove`) and `p`'s own set is rebound to the empty set. -/
def disconnect (g : GState) (p : Nat) : GState :=
  if disconnected g p = true then g
  else
    let c1 := fun q =>
      if q ∈ g.conns p then (g.conns q).erase p else g.conns q
    { g with conns := upd c1 p ∅ }

/-- Run a list of `connect` calls in order, stopping at the first raised
`ConnectionError`. -/
def connectSeq (g : GState) : List (Nat × Nat) → Except ConnErr GState
  | [] => Except.ok g
  | (a, b) :: rest =>
    match connect g a b with
    | Except.ok g2 => connectSeq g2 rest
    | Except.error e => Except.error e

/-! Section: ports with buffers and state (`plappy/io.py`), devices
(`plappy/devices.py`)

`bufstate` values mirror `plappy/plappyconfig.py`. -/

def bufstateEmpty : Nat := 0

def bufstateFilled : Nat := 1

def bufstateReadyToPush : Nat := 2

/-- Full system state: the port graph, the buffer heap, and for every port
its `buffer` handle, its `bufstate` flag, and its `label`. -/
structure SysState where
  g : GState
  mem : BufMem
  pbuf : Nat → Nat
  pstate : Nat → Nat
  plabel : Nat → String

/-- `IO.connect` lifted to the full state: only the connection sets are
touched. -/
def connectS (s : SysState) (a b : Nat) : Except ConnErr SysState :=
  (connect s.g a b).map fun g2 => { s with g := g2 }

/-- `IO.load(self=p, buffer=src)`: `self.buffer.destroy()`, then
`self.buffer = SampleBuffer(other=buffer)`.  `IO.load` sets `bufstate` to
`filled`; `Input.load` sets it to `filled` again and `Output.load`
overrides it with `ready_to_push`, so the final flag depends on the
kind. -/
def load (s : SysState) (p : Nat) (src : Nat) : SysState :=
  let m1 := destroy s.mem (s.pbuf p)
  let bm := sbShare m1 src
  { s with
    mem := bm.2
    pbuf := upd s.pbuf p bm.1
    pstate := upd s.pstate p
      (if s.g.kind p = IOKind.output then bufstateReadyToPush else bufstateFilled) }

/-- `IO.clear`: `self.buffer.destroy()`, `bufstate = empty`. -/
def clear (s : SysState) (p : Nat) : SysState :=
  { s with
    mem := destroy s.mem (s.pbuf p)
    pstate := upd s.pstate p bufstateEmpty }

/-- `IO.push`: `for connection in self.connections:
connection.load(self.buffer)`; `self.buffer` is re-read at each iteration,
hence `acc.pbuf p`. -/
def push (s : SysState) (p : Nat) : SysState :=
  (setList (s.g.conns p)).foldl (fun acc q => load acc q (acc.pbuf p)) s

/-- `IO.flush`: `self.push().clear()`. -/
def flush (s : SysState) (p : Nat) : SysState :=
  clear (push s p) p

/-- `IO.read`: `self.buffer.prepare_to_modify()`, capture
`self.buffer.array`, `self.clear()`, return the captured array (its heap
key). -/
def read (s : SysState) (p : Nat) : Option Nat × SysState :=
  let m1 := prepare_to_modify s.mem (s.pbuf p)
  let contents := m1.bufArr (s.pbuf p)
  (contents, clear { s with mem := m1 } p)

/-- `tick` of a port: `Input.tick` sets `bufstate` to `empty`;
`Output.tick` performs `flush`. -/
def ioTick (s : SysState) (p : Nat) : SysState :=
  if s.g.kind p = IOKind.output then flush s p
  else { s with pstate := upd s.pstate p bufstateEmpty }

/-- Content seen through a port's buffer, for stating observations. -/
def portVal (s : SysState) (p : Nat) : Option ArrData :=
  (s.mem.bufArr (s.pbuf p)).map s.mem.arrData

/-- A device: class name, label, the `ios` mapping (insertion-ordered,
holding port ids), and the `subdevices` mapping (insertion-ordered). -/
inductive DeviceT where
  | mk (cls : String) (label : String) (ios : List Nat) (subs : List DeviceT)

mutual

/-- `Device.tick`: the first loop calls `tick()` on every own port whose
`bufstate` is `filled` (checked against the current state at each
iteration), then `self.process()`, then the second loop calls `tick()` on
every own port whose `bufstate` is `ready_to_push`. -/
def tickDev (s : SysState) : DeviceT → SysState
  | DeviceT.mk _cls _label ios subs =>
    let s1 := ios.foldl
      (fun acc p => if acc.pstate p = bufstateFilled then ioTick acc p else acc) s
    let s2 := processDev s1 subs
    ios.foldl
      (fun acc p => if acc.pstate p = bufstateReadyToPush then ioTick acc p else acc) s2

/-- `Device.process`: `for subdevice in self.subdevices:
self.subdevices[subdevice].tick()` — each subdevice ticks, in insertion
order. -/
def processDev (s : SysState) : List DeviceT → SysState
  | [] => s
  | d :: rest => processDev (tickDev s d) rest

end

/-- Spec wording, phase (a): "Drain: every owned port currently Filled
gets tick() called". -/
def drainPhase (s : SysState) (ios : List Nat) : SysState :=
  ios.foldl (fun acc p => if acc.pstate p = bufstateFilled then ioTick acc p else acc) s

/-- Spec wording, phase (c): "Flush: every owned port currently
ReadyToPush gets tick() called". -/
def flushPhase (s : SysState) (ios : List Nat) : SysState :=
  ios.foldl
    (fun acc p => if acc.pstate p = bufstateReadyToPush then ioTick acc p else acc) s

/-! Section: patch import (`plappy/patch.py`) and export

Patch values are Python objects: strings, class objects (identified here
by their name), dicts with string keys, and sequences.  Exceptions:
`InvalidPatchError` and `IncompatibleVersionError` are the two
`PatchError` subclasses raised by the patch module; `KeyError`,
`TypeError`, `ValueError` and `RecursionError` are the builtin exceptions
its code can raise, which are not `PatchError`s. -/

inductive PVal where
  | pstr (s : String)
  | pcls (name : String)
  | pdict (entries : List (String × PVal))
  | plist (xs : List PVal)

inductive PErr where
  | invalidPatch
  | incompatibleVersion
deriving DecidableEq

inductive PyErr where
  | patchErr (e : PErr)
  | keyError
  | typeError
  | valueError
  | recursionLimit
deriving DecidableEq

/-- The `type` objects that appear in the `props` argument of
`validate_patch`. -/
inductive PyType where
  | str
  | dict
deriving DecidableEq

def keysOf (patch : List (String × PVal)) : List String :=
  patch.map Prod.fst

/-- `prop in patch` for a dict: key membership. -/
def hasKey (patch : List (String × PVal)) (k : String) : Bool :=
  decide (k ∈ keysOf patch)

/-- `type(prop)` where `prop` ranges over the names in `props`: the keys
are strings, so this is always `str`. -/
def keyType (_k : String) : PyType :=
  PyType.str

/-- First loop of `validate_patch`: `for prop, datatype in props: if not
prop in patch: raise InvalidPatchError(...); if type(prop) is not
datatype: raise InvalidPatchError(...)`.  Note that the source checks the
type of the key name `prop`, not of the value `patch[prop]`. -/
def checkProps (patch : List (String × PVal)) :
    List (String × PyType) → Except PyErr Unit
  | [] => Except.ok ()
  | (prop, datatype) :: rest =>
    if hasKey patch prop = false then Except.error (PyErr.patchErr PErr.invalidPatch)
    else if keyType prop ≠ datatype then Except.error (PyErr.patchErr PErr.invalidPatch)
    else checkProps patch rest

/-- `prop in props` in the second loop of `validate_patch`: a string key
is compared with the `(name, type)` pairs of `props`; a `str` never equals
a tuple, so the membership test is `False` for every key. -/
def strInPairs (_k : String) (props : List (String × PyType)) : Bool :=
  props.any fun _ => false

/-- Second loop of `validate_patch`: `for prop in patch: if not prop in
props: raise InvalidPatchError(...)`. -/
def checkExtra (props : List (String × PyType)) :
    List String → Except PyErr Unit
  | [] => Except.ok ()
  | k :: rest =>
    if strInPairs k props = false then Except.error (PyErr.patchErr PErr.invalidPatch)
    else checkExtra props rest

/-- `validate_patch(patch, props)`. -/
def validate_patch (patch : List (String × PVal))
    (props : List (String × PyType)) : Except PyErr Unit := do
  checkProps patch props
  checkExtra props (keysOf patch)

/-- Modelled from the spec: `plappy.__version__`, defined in the package
init file which is not among the sources.  The spec fixes only its shape
(a three-part dotted string); the concrete value is irrelevant to every
theorem below. -/
def plappyVersion : String :=
  "0.1.0"

def keyget (patch : List (String × PVal)) (k : String) : Except PyErr PVal :=
  match patch.find? (fun e => e.1 = k) with
  | some e => Except.ok e.2
  | none => Except.error PyErr.keyError

def asStr : PVal → Except PyErr String
  | PVal.pstr s => Except.ok s
  | _ => Except.error PyErr.typeError

def asCls : PVal → Except PyErr String
  | PVal.pcls c => Except.ok c
  | _ => Except.error PyErr.typeError

def asList : PVal → Except PyErr (List PVal)
  | PVal.plist l => Except.ok l
  | _ => Except.error PyErr.typeError

def asDict : PVal → Except PyErr (List (String × PVal))
  | PVal.pdict d => Except.ok d
  | _ => Except.error PyErr.typeError

/-- `int(s)`, raising `ValueError` on a non-numeral. -/
def pyInt (s : String) : Except PyErr Int :=
  match s.toInt? with
  | some n => Except.ok n
  | none => Except.error PyErr.valueError

/-- `validate_version(patch)`: split `patch` and current version on dots,
require three parts, and reject a major component later than the current
one. -/
def validate_version (patch : List (String × PVal)) :
    Except PyErr (List String) := do
  let v ← keyget patch "version"
  let vs ← asStr v
  let patch_version_parts := vs.splitOn "."
  let current_version_parts := plappyVersion.splitOn "."
  if patch_version_parts.length ≠ 3 then
    Except.error (PyErr.patchErr PErr.incompatibleVersion)
  else do
    let pMajor ← pyInt (patch_version_parts.headD "")
    let cMajor ← pyInt (current_version_parts.headD "")
    if cMajor < pMajor then Except.error (PyErr.patchErr PErr.incompatibleVersion)
    else Except.ok patch_version_parts

/-- `util.unique_key`: return `old_key` if free, else the first
`old_key{counter}` for `counter = 2, 3, ...` that is free.  The Python
`while` loop always terminates because the candidates are pairwise
distinct and the collection is finite; the bounded search below always
finds the same key (by pigeonhole the fallback branch is unreachable). -/
def unique_key (old_key : String) (ks : List String) : String :=
  if old_key ∉ ks then old_key
  else
    match (List.range (ks.length + 1)).find?
        (fun i => (old_key ++ toString (i + 2)) ∉ ks) with
    | some i => old_key ++ toString (i + 2)
    | none => old_key ++ toString (ks.length + 2)

/-- An `IO` object as rebuilt by `make_device`: `io_cls(label=io_label)`
produces a port with an empty `connections` set. -/
structure IOV where
  cls : String
  label : String
  connections : Finset String
deriving DecidableEq

/-- A `Device` as rebuilt by `make_device`: class, label, the
insertion-ordered `ios` and `subdevices` mappings. -/
inductive DeviceV where
  | mk (cls : String) (label : String) (ios : List (String × IOV))
      (subs : List (String × DeviceV))

def DeviceV.labelOf : DeviceV → String
  | DeviceV.mk _ l _ _ => l

/-- `Device.add_subdevice` with `label=None`: register under
`unique_key(subdevice.label, self.subdevices)`. -/
def add_subdevice : DeviceV → DeviceV → DeviceV
  | DeviceV.mk c l ios subs, sub =>
    DeviceV.mk c l ios
      (subs ++ [(unique_key sub.labelOf (subs.map Prod.fst), sub)])

/-- `Device.add_io(io, label)`: register under
`unique_key(label, self.ios)`. -/
def add_io : DeviceV → IOV → String → DeviceV
  | DeviceV.mk c l ios subs, io, label =>
    DeviceV.mk c l (ios ++ [(unique_key label (ios.map Prod.fst), io)]) subs

/-- Loop of `make_device` over `io_connections`:
`connections_to_make.add(frozenset((io_label, conn_label)))`.  The labels
produced by the program are strings; a non-string is rejected here where
Python would accept any hashable value. -/
def addConnLabels (io_label : String) (conns : Finset (Finset String)) :
    List PVal → Except PyErr (Finset (Finset String))
  | [] => Except.ok conns
  | c :: rest => do
    let cl ← asStr c
    addConnLabels io_label (insert {io_label, cl} conns) rest

/-- Loop of `make_device` over `ios`: build `io_cls(label=io_label)`,
collect its connection labels, and `device.add_io(io, io_label)`. -/
def iosLoop (dev : DeviceV) (conns : Finset (Finset String)) :
    List PVal → Except PyErr (DeviceV × Finset (Finset String))
  | [] => Except.ok (dev, conns)
  | io_spec :: rest => do
    let entries ← asDict io_spec
    let io_clsv ← keyget entries "class"
    let io_labelv ← keyget entries "label"
    let io_connsv ← keyget entries "connections"
    let io_cls ← asCls io_clsv
    let io_label ← asStr io_labelv
    let io_connections ← asList io_connsv
    let io := IOV.mk io_cls io_label ∅
    let conns2 ← addConnLabels io_label conns io_connections
    iosLoop (add_io dev io io_label) conns2 rest

/-- CPython's default recursion limit, which bounds the depth of the
`make_device` recursion; a deeper patch raises `RecursionError`. -/
def pyRecursionLimit : Nat :=
  1000

mutual

/-- `make_device(spec, connections_to_make=None)`: read `class`, `label`,
`subdevices` and `ios` from the spec dict (a missing key raises
`KeyError`, a non-dict spec raises `TypeError`), instantiate the class
(`cls(label=label)`; calling a non-class object raises `TypeError`),
recursively build and attach the subdevices, then build the ios and
collect the connection pairs. -/
def make_device (fuel : Nat) (spec : PVal)
    (connections_to_make : Option (Finset (Finset String))) :
    Except PyErr (DeviceV × Finset (Finset String)) :=
  match fuel with
  | 0 => Except.error PyErr.recursionLimit
  | fuel + 1 => do
    let conns0 := connections_to_make.getD ∅
    let entries ← asDict spec
    let clsv ← keyget entries "class"
    let labelv ← keyget entries "label"
    let subsv ← keyget entries "subdevices"
    let iosv ← keyget entries "ios"
    let cls ← asCls clsv
    let label ← asStr labelv
    let subdevices ← asList subsv
    let ios ← asList iosv
    let dev0 := DeviceV.mk cls label [] []
    let dev1 ← makeSubs fuel dev0 subdevices
    iosLoop dev1 conns0 ios
termination_by (fuel, 0)

/-- Loop of `make_device` over `subdevices`: `subdevice, _ =
make_device(sub_spec)` (the sub-collection of connections is discarded);
`device <= subdevice` adds the subdevice. -/
def makeSubs (fuel : Nat) (dev : DeviceV) :
    List PVal → Except PyErr DeviceV
  | [] => Except.ok dev
  | sub_spec :: rest => do
    let sub ← make_device fuel sub_spec none
    makeSubs fuel (add_subdevice dev sub.1) rest
termination_by l => (fuel, l.length + 1)

end

/-- `make_connections(device, connections)`: the body is `pass` — nothing
is mutated and nothing is returned; modelled as returning the device
unchanged. -/
def make_connections (device : DeviceV)
    (_connections : Finset (Finset String)) : DeviceV :=
  device

/-- `parse_patch(patch)`: validate, check the version, then build the
device from the whole patch dict (the source passes `patch` itself to
`make_device`, not `patch["tree"]`) and call `make_connections`. -/
def parse_patch (patch : List (String × PVal)) : Except PyErr DeviceV := do
  validate_patch patch
    [("version", PyType.str), ("schema", PyType.str),
     ("name", PyType.str), ("tree", PyType.dict)]
  let _ ← validate_version patch
  let dc ← make_device pyRecursionLimit (PVal.pdict patch) none
  Except.ok (make_connections dc.1 dc.2)

/-- Result classifier used by the theorems: the exception a call raises,
if any. -/
def errOf (x : Except PyErr DeviceV) : Option PyErr :=
  match x with
  | Except.error e => some e
  | Except.ok _ => none

def kindName : IOKind → String
  | IOKind.input => "Input"
  | IOKind.output => "Output"

/-- `IO.patch_helper`: the port descriptor `{class: type name, label,
connections: labels of the connected ports}` (the `connections` tuple
enumerates a Python set, modelled by the ascending enumeration). -/
def patch_helper (s : SysState) (p : Nat) : PVal :=
  PVal.pdict
    [("class", PVal.pstr (kindName (s.g.kind p))),
     ("label", PVal.pstr (s.plabel p)),
     ("connections",
       PVal.plist ((setList (s.g.conns p)).map fun q => PVal.pstr (s.plabel q)))]

mutual

/-- Modelled from the spec: the exporter ("Export walks the live tree")
is not among the sources.  A node is `{class: device-type identifier,
label, ios: sequence of port descriptors, subdevices: sequence of
nodes}`; the port descriptors come from `IO.patch_helper`, which is in
the sources. -/
def exportNode (s : SysState) : DeviceT → PVal
  | DeviceT.mk cls label ios subs =>
    PVal.pdict
      [("class", PVal.pstr cls),
       ("label", PVal.pstr label),
       ("ios", PVal.plist (ios.map (patch_helper s))),
       ("subdevices", PVal.plist (exportSubs s subs))]

def exportSubs (s : SysState) : List DeviceT → List PVal
  | [] => []
  | d :: rest => exportNode s d :: exportSubs s rest

end

def DeviceT.labelOf : DeviceT → String
  | DeviceT.mk _ l _ _ => l

/-- Modelled from the spec: the top level of a persisted patch is
`{version: three-part dotted string, schema: string tag, name: string,
tree: node}`. -/
def exportPatch (s : SysState) (d : DeviceT) : List (String × PVal) :=
  [("version", PVal.pstr plappyVersion),
   ("schema", PVal.pstr "plappy"),
   ("name", PVal.pstr d.labelOf),
   ("tree", exportNode s d)]

/-! Section: helper lemmas -/

theorem upd_same {β : Sort u} (f : Nat → β) (i : Nat) (v : β) : upd f i v i = v := by
  simp [upd]

theorem upd_other {β : Sort u} (f : Nat → β) {i j : Nat} (v : β) (h : j ≠ i) :
    upd f i v j = f j := by
  simp [upd, h]

/-- Self-membership invariant of the `refs` sets (`SampleBuffer`): every
allocated buffer handle has a reference-set key below the allocation
counter, and is a member of its own `refs` set. -/
def SelfRefInv (m : BufMem) : Prop :=
  ∀ b, b < m.nextBuf → m.bufRef b < m.nextRef ∧ b ∈ m.refSet (m.bufRef b)

theorem destroy_selfRefInv {m : BufMem} (b : Nat) (h : SelfRefInv m) :
    SelfRefInv (destroy m b) := by
  intro b' hb'
  simp only [destroy] at hb' ⊢
  by_cases hbb : b' = b
  · subst hbb
    refine ⟨by rw [upd_same]; omega, ?_⟩
    rw [upd_same, upd_same]
    exact Finset.mem_singleton_self _
  · obtain ⟨h1, h2⟩ := h b' hb'
    rw [upd_other _ _ hbb]
    refine ⟨by omega, ?_⟩
    rw [upd_other _ _ (by omega : m.bufRef b' ≠ m.nextRef)]
    by_cases hrr : m.bufRef b' = m.bufRef b
    · rw [hrr, upd_same]
      exact Finset.mem_erase.2 ⟨hbb, hrr ▸ h2⟩
    · rw [upd_other _ _ hrr]
      exact h2

theorem allocArray_selfRefInv {m : BufMem} (d : ArrData) (h : SelfRefInv m) :
    SelfRefInv (allocArray m d).2 := by
  intro b' hb'
  exact h b' hb'

theorem prepare_to_modify_selfRefInv {m : BufMem} (b : Nat) (h : SelfRefInv m) :
    SelfRefInv (prepare_to_modify m b) := by
  rw [prepare_to_modify]
  split
  · intro b' hb'
    have hd := destroy_selfRefInv b (allocArray_selfRefInv (npCopySrc m (m.bufArr b)) h)
    exact hd b' hb'
  · exact h

theorem sbInit_selfRefInv {m : BufMem} (h : SelfRefInv m) :
    SelfRefInv (sbInit m).2 := by
  intro b' hb'
  simp only [sbInit] at hb' ⊢
  by_cases hbb : b' = m.nextBuf
  · subst hbb
    rw [upd_same, upd_same]
    exact ⟨by omega, Finset.mem_singleton_self _⟩
  · have hlt : b' < m.nextBuf := by omega
    obtain ⟨h1, h2⟩ := h b' hlt
    rw [upd_other _ _ hbb]
    refine ⟨by omega, ?_⟩
    rw [upd_other _ _ (by omega : m.bufRef b' ≠ m.nextRef)]
    exact h2

theorem sbShare_selfRefInv {m : BufMem} {o : Nat} (h : SelfRefInv m)
    (ho : o < m.nextBuf) : SelfRefInv (sbShare m o).2 := by
  intro b' hb'
  simp only [sbShare] at hb' ⊢
  obtain ⟨ho1, ho2⟩ := h o ho
  by_cases hbb : b' = m.nextBuf
  · subst hbb
    rw [upd_same]
    refine ⟨ho1, ?_⟩
    rw [upd_same]
    exact Finset.mem_insert_self _ _
  · have hlt : b' < m.nextBuf := by omega
    obtain ⟨h1, h2⟩ := h b' hlt
    rw [upd_other _ _ hbb]
    refine ⟨h1, ?_⟩
    by_cases hrr : m.bufRef b' = m.bufRef o
    · rw [hrr, upd_same]
      exact Finset.mem_insert_of_mem (hrr ▸ h2)
    · rw [upd_other _ _ hrr]
      exact h2

theorem from_array_selfRefInv {m : BufMem} (a : Nat) (h : SelfRefInv m) :
    SelfRefInv (from_array m a).2 := by
  intro b' hb'
  exact sbInit_selfRefInv h b' hb'

/-! Section: claim theorems -/

/-- C8: `prepare_to_modify` clones the array only when the buffer is
shared (`len(refs) > 1`).  When shared it stores a freshly allocated copy
of the array in private storage (the new key is the allocation counter,
its content the copy of the old content), removes the buffer from the old
owners set and makes the owners set `{self}`; when not shared the whole
state, in particular the array identity, is untouched.  The operation is
idempotent.  No other `SampleBuffer` operation (`__init__`, sharing
construction, `from_array`, `destroy`) allocates or duplicates an array.
The hypothesis is the freshness of the reference-set allocation counter,
which `SelfRefInv` gives on every reachable heap. -/
theorem claim_C8_prepare_to_modify (m : BufMem) (b : Nat)
    (hr : m.bufRef b < m.nextRef) :
    (1 < (m.refSet (m.bufRef b)).card →
        (prepare_to_modify m b).bufArr b = some m.nextArr
      ∧ (prepare_to_modify m b).arrData m.nextArr = npCopySrc m (m.bufArr b)
      ∧ (prepare_to_modify m b).nextArr = m.nextArr + 1
      ∧ (prepare_to_modify m b).refSet ((prepare_to_modify m b).bufRef b) = {b}
      ∧ b ∉ (prepare_to_modify m b).refSet (m.bufRef b))
    ∧ (¬ 1 < (m.refSet (m.bufRef b)).card → prepare_to_modify m b = m)
    ∧ prepare_to_modify (prepare_to_modify m b) b = prepare_to_modify m b
    ∧ (∀ o, (sbShare m o).2.nextArr = m.nextArr
        ∧ ∀ i, (sbShare m o).2.arrData i = m.arrData i)
    ∧ ((sbInit m).2.nextArr = m.nextArr ∧ ∀ i, (sbInit m).2.arrData i = m.arrData i)
    ∧ (∀ a, (from_array m a).2.nextArr = m.nextArr
        ∧ ∀ i, (from_array m a).2.arrData i = m.arrData i)
    ∧ ((destroy m b).nextArr = m.nextArr ∧ ∀ i, (destroy m b).arrData i = m.arrData i) := by
  have hshared : 1 < (m.refSet (m.bufRef b)).card →
      (prepare_to_modify m b).bufArr b = some m.nextArr
      ∧ (prepare_to_modify m b).arrData m.nextArr = npCopySrc m (m.bufArr b)
      ∧ (prepare_to_modify m b).nextArr = m.nextArr + 1
      ∧ (prepare_to_modify m b).refSet ((prepare_to_modify m b).bufRef b) = {b}
      ∧ b ∉ (prepare_to_modify m b).refSet (m.bufRef b) := by
    intro hc
    have hne : m.bufRef b ≠ m.nextRef := by omega
    rw [prepare_to_modify, if_pos hc]
    refine ⟨?_, ?_, ?_, ?_, ?_⟩
    · simp [destroy, allocArray, upd]
    · simp [destroy, allocArray, upd]
    · simp [destroy, allocArray]
    · simp [destroy, allocArray, upd]
    · simp [destroy, allocArray, upd, hne]
  refine ⟨hshared, ?_, ?_, ?_, ?_, ?_, ?_⟩
  · intro hc
    rw [prepare_to_modify, if_neg hc]
  · by_cases hc : 1 < (m.refSet (m.bufRef b)).card
    · obtain ⟨_, _, _, h4, _⟩ := hshared hc
      have hno : ¬ 1 <
          ((prepare_to_modify m b).refSet ((prepare_to_modify m b).bufRef b)).card := by
        rw [h4]
        simp
      rw [prepare_to_modify, if_neg hno]
    · have heq : prepare_to_modify m b = m := by rw [prepare_to_modify, if_neg hc]
      rw [heq]
      exact heq
  · intro o
    exact ⟨rfl, fun i => rfl⟩
  · exact ⟨rfl, fun i => rfl⟩
  · intro a
    exact ⟨rfl, fun i => rfl⟩
  · exact ⟨rfl, fun i => rfl⟩

/-- A concrete shared heap: two buffer handles sharing one `refs` set. -/
def memShared : BufMem :=
  (sbShare (sbInit memInit).2 0).2

theorem claim_C8_witness :
    (prepare_to_modify memShared 0).bufArr 0 = some memShared.nextArr
    ∧ (prepare_to_modify memShared 0).arrData memShared.nextArr
        = npCopySrc memShared (memShared.bufArr 0)
    ∧ (prepare_to_modify memShared 0).nextArr = memShared.nextArr + 1
    ∧ (prepare_to_modify memShared 0).refSet ((prepare_to_modify memShared 0).bufRef 0) = {0}
    ∧ 0 ∉ (prepare_to_modify memShared 0).refSet (memShared.bufRef 0) :=
  (claim_C8_prepare_to_modify memShared 0 (by decide)).1 (by decide)

/-- C10: every `SampleBuffer` is a member of its own `refs` set: the
invariant `SelfRefInv` holds of the empty heap and is preserved by
construction (fresh, sharing, `from_array`), by `destroy` and by
`prepare_to_modify`; under it, the `len(refs) == 1` test of `empty()` is
equivalent to `refs == {self}`, so `empty()` decides exactly "array absent
and owners equal to the singleton of the buffer itself". -/
theorem claim_C10_selfref_empty :
    SelfRefInv memInit
    ∧ (∀ m, SelfRefInv m → SelfRefInv (sbInit m).2)
    ∧ (∀ m o, SelfRefInv m → o < m.nextBuf → SelfRefInv (sbShare m o).2)
    ∧ (∀ m a, SelfRefInv m → SelfRefInv (from_array m a).2)
    ∧ (∀ m b, SelfRefInv m → SelfRefInv (destroy m b))
    ∧ (∀ m b, SelfRefInv m → SelfRefInv (prepare_to_modify m b))
    ∧ (∀ m b, SelfRefInv m → b < m.nextBuf →
        (((m.refSet (m.bufRef b)).card = 1) ↔ m.refSet (m.bufRef b) = {b}))
    ∧ (∀ m b, SelfRefInv m → b < m.nextBuf →
        (sbEmpty m b = true ↔ (m.bufArr b = none ∧ m.refSet (m.bufRef b) = {b}))) := by
  have hcard : ∀ m b, SelfRefInv m → b < m.nextBuf →
      (((m.refSet (m.bufRef b)).card = 1) ↔ m.refSet (m.bufRef b) = {b}) := by
    intro m b h hb
    obtain ⟨_, h2⟩ := h b hb
    constructor
    · intro hc
      obtain ⟨x, hx⟩ := Finset.card_eq_one.1 hc
      rw [hx] at h2 ⊢
      rw [Finset.mem_singleton.1 h2]
    · intro hs
      rw [hs]
      exact Finset.card_singleton b
  refine ⟨?_, ?_, ?_, ?_, ?_, ?_, hcard, ?_⟩
  · intro b hb
    exact absurd hb (by simp [memInit])
  · exact fun m h => sbInit_selfRefInv h
  · exact fun m o h ho => sbShare_selfRefInv h ho
  · exact fun m a h => from_array_selfRefInv a h
  · exact fun m b h => destroy_selfRefInv b h
  · exact fun m b h => prepare_to_modify_selfRefInv b h
  · intro m b h hb
    rw [sbEmpty]
    rw [Bool.and_eq_true, decide_eq_true_iff, decide_eq_true_iff]
    rw [hcard m b h hb]

theorem ofirst_eq_none {x y : Option ConnErr} (h : ofirst x y = none) :
    x = none ∧ y = none := by
  cases x with
  | none => exact ⟨rfl, h⟩
  | some e => simp [ofirst] at h

theorem connect_check_some {k : Nat → IOKind} {x y : Nat}
    (hx : k x = IOKind.output) (hy : k y = IOKind.output) :
    connect_check k x y ≠ none := by
  rw [connect_check]
  by_cases h : y = x
  · rw [if_pos h]
    simp
  · rw [if_neg h, if_pos ⟨hx, hy⟩]
    simp

theorem pairCheck_none {k : Nat → IOKind} {c : Nat} {l : List Nat}
    (h : pairCheck k c l = none) {c2 : Nat} (hm : c2 ∈ l) (hne : c ≠ c2) :
    connect_check k c c2 = none := by
  induction l with
  | nil => cases hm
  | cons x rest ih =>
    simp only [pairCheck] at h
    by_cases hcx : c = x
    · rw [if_pos hcx] at h
      cases List.mem_cons.1 hm with
      | inl h1 => exact absurd (hcx.trans h1.symm) hne
      | inr h2 => exact ih h h2
    · rw [if_neg hcx] at h
      obtain ⟨h1, hrest⟩ := ofirst_eq_none h
      obtain ⟨_, h3⟩ := ofirst_eq_none hrest
      cases List.mem_cons.1 hm with
      | inl hh => exact hh ▸ h1
      | inr hh => exact ih h3 hh

theorem unionLoop_none {k : Nat → IOKind} {a b : Nat} {full l : List Nat}
    (h : unionLoop k a b full l = none) {c : Nat} (hm : c ∈ l) :
    pairCheck k c full = none
    ∧ connect_check k a c = none ∧ connect_check k b c = none
    ∧ connect_check k c a = none ∧ connect_check k c b = none := by
  induction l with
  | nil => cases hm
  | cons x rest ih =>
    simp only [unionLoop] at h
    obtain ⟨h1, hr1⟩ := ofirst_eq_none h
    obtain ⟨h2, hr2⟩ := ofirst_eq_none hr1
    obtain ⟨h3, hr3⟩ := ofirst_eq_none hr2
    obtain ⟨h4, hr4⟩ := ofirst_eq_none hr3
    obtain ⟨h5, h6⟩ := ofirst_eq_none hr4
    cases List.mem_cons.1 hm with
    | inl hh => subst hh; exact ⟨h1, h2, h3, h4, h5⟩
    | inr hh => exact ih h6 hh

/-- Invariant of the port graph stated by the spec: an Output is never
connected to another Output. -/
def NoTwoOutputs (g : GState) : Prop :=
  ∀ p q, q ∈ g.conns p →
    ¬(g.kind p = IOKind.output ∧ g.kind q = IOKind.output)

/-- C2: whenever `connect(a, b)` is attempted between two distinct,
not-yet-connected ports such that the group of `a` (the port itself or
one of its connections) holds an Output `oa` and the group of `b` holds a
different Output `ob`, the call raises a `ConnectionError`: either the
direct `connect_check` or the union re-validation loop fires before any
state is mutated (the `Except.error` result carries no new state, so every
port keeps the connection set it had in `g`).  Afterwards the two Outputs
are not `connected()` to each other, in either direction. -/
theorem claim_C2_output_output (g : GState) (a b oa ob : Nat)
    (hnt : NoTwoOutputs g) (hnc : b ∉ g.conns a) (hba : b ≠ a)
    (hoa : oa ∈ insert a (g.conns a)) (hob : ob ∈ insert b (g.conns b))
    (hka : g.kind oa = IOKind.output) (hkb : g.kind ob = IOKind.output)
    (hd : oa ≠ ob) :
    (∃ e, connect g a b = Except.error e)
    ∧ connected g oa ob = false ∧ connected g ob oa = false := by
  have hc0 : ¬(connected g a b = true ∨ b = a) := by
    simp [connected, hnc, hba]
  refine ⟨?_, ?_, ?_⟩
  · rw [connect, if_neg hc0]
    cases hdc : ofirst (connect_check g.kind a b) (connect_check g.kind b a) with
    | some e => exact ⟨e, rfl⟩
    | none =>
      obtain ⟨hab1, _⟩ := ofirst_eq_none hdc
      have hmem : ∀ x, x ∈ setList (g.conns b ∪ g.conns a) ↔
          x ∈ g.conns b ∨ x ∈ g.conns a := by
        intro x
        rw [mem_setList]
        exact Finset.mem_union
      dsimp only
      cases hul : unionLoop g.kind a b (setList (g.conns b ∪ g.conns a))
          (setList (g.conns b ∪ g.conns a)) with
      | some e => exact ⟨e, rfl⟩
      | none =>
        exfalso
        rcases Finset.mem_insert.1 hoa with ha1 | ha2
        · rcases Finset.mem_insert.1 hob with hb1 | hb2
          · exact absurd (hb1 ▸ ha1 ▸ hab1)
              (connect_check_some (ha1 ▸ hka) (hb1 ▸ hkb))
          · have hobu : ob ∈ setList (g.conns b ∪ g.conns a) :=
              (hmem ob).2 (Or.inl hb2)
            obtain ⟨_, hac, _, _, _⟩ := unionLoop_none hul hobu
            exact absurd hac (connect_check_some (ha1 ▸ hka) hkb)
        · rcases Finset.mem_insert.1 hob with hb1 | hb2
          · have hoau : oa ∈ setList (g.conns b ∪ g.conns a) :=
              (hmem oa).2 (Or.inr ha2)
            obtain ⟨_, _, hbc, _, _⟩ := unionLoop_none hul hoau
            exact absurd hbc (connect_check_some (hb1 ▸ hkb) hka)
          · have hoau : oa ∈ setList (g.conns b ∪ g.conns a) :=
              (hmem oa).2 (Or.inr ha2)
            have hobu : ob ∈ setList (g.conns b ∪ g.conns a) :=
              (hmem ob).2 (Or.inl hb2)
            obtain ⟨hpc, _, _, _, _⟩ := unionLoop_none hul hoau
            exact absurd (pairCheck_none hpc hobu hd) (connect_check_some hka hkb)
  · have hno : ob ∉ g.conns oa := fun hm => hnt oa ob hm ⟨hka, hkb⟩
    simp [connected, hno]
  · have hno : oa ∉ g.conns ob := fun hm => hnt ob oa hm ⟨hkb, hka⟩
    simp [connected, hno]

/-- Two disconnected Output ports. -/
def gTwoOutputs : GState :=
  { kind := fun _ => IOKind.output, conns := fun _ => ∅ }

theorem claim_C2_witness :
    (∃ e, connect gTwoOutputs 0 1 = Except.error e)
    ∧ connected gTwoOutputs 0 1 = false ∧ connected gTwoOutputs 1 0 = false :=
  claim_C2_output_output gTwoOutputs 0 1 0 1
    (fun p q hq => absurd hq (by simp [gTwoOutputs]))
    (by decide) (by decide) (by decide) (by decide) (by decide) (by decide)
    (by decide)

/-- C9: when `a` and `b` are already mutually connected, `connect(a, b)`
hits the early return and is a no-op: no error is raised and the state —
every port's connection set — is returned unchanged. -/
theorem claim_C9_idempotent (g : GState) (a b : Nat)
    (h1 : b ∈ g.conns a) (_h2 : a ∈ g.conns b) :
    connect g a b = Except.ok g := by
  rw [connect, if_pos]
  exact Or.inl (by simp [connected, h1])

/-- Two mutually connected Input ports. -/
def gPair : GState :=
  { kind := fun _ => IOKind.input
    conns := fun p => if p = 0 then {1} else if p = 1 then {0} else ∅ }

theorem claim_C9_witness : connect gPair 0 1 = Except.ok gPair :=
  claim_C9_idempotent gPair 0 1 (by decide) (by decide)

/-- A graph of disconnected Input ports. -/
def gAllInputs : GState :=
  { kind := fun _ => IOKind.input, conns := fun _ => ∅ }

/-- C6, counterexample: the claim says connecting a port to itself always
fails with `ConnectionError`, but `connect(p, p)` hits the `conn is self`
early return before any `connect_check` runs: at the concrete port `5` of
a graph of disconnected inputs the call raises nothing and returns the
state unchanged. -/
theorem claim_C6_counterexample : connect gAllInputs 5 5 = Except.ok gAllInputs := by
  rw [connect, if_pos (Or.inr rfl)]

/-- C6, amended: for every port `p`, `connect(p, p)` raises no error and
leaves every connection set unchanged (the `conn is self` early return
fires first), while a direct `connect_check(p, p)` call does raise
`SelfConnectionError` — the pairwise rule exists but is unreachable on
the self-connection path of `connect`. -/
theorem claim_C6_amended (g : GState) (p : Nat) :
    connect g p p = Except.ok g
    ∧ connect_check g.kind p p = some ConnErr.selfConnection := by
  constructor
  · rw [connect, if_pos (Or.inr rfl)]
  · rw [connect_check, if_pos rfl]

/-- C1, violation witnessed at a concrete run: starting from four
disconnected Input ports, `connect(0,1)`, `connect(2,3)` and
`connect(0,2)` all succeed; the merged group is `U = {0,1,2,3}`, so the
claim requires every member to end with `U` minus itself — port `1`
should be connected to `{0,2,3}`.  The code commits only the two
endpoints into each prior neighbour's set: port `1` ends with `{0,2}` and
port `3` with `{0,2}`, so `1` and `3` are members of one merged group yet
not connected — the relation is symmetric here but not transitively
closed, and no port of the old groups received the full union. -/
theorem claim_C1_clique_broken :
    (connectSeq gAllInputs [(0, 1), (2, 3), (0, 2)]).toOption.map
      (fun g => (setList (g.conns 0), setList (g.conns 1),
                 setList (g.conns 2), setList (g.conns 3)))
    = some ([1, 2, 3], [0, 2], [0, 1, 3], [0, 2]) := by
  decide

theorem claim_C10_witness :
    sbEmpty (sbInit memInit).2 0 = true
    ↔ ((sbInit memInit).2.bufArr 0 = none
        ∧ (sbInit memInit).2.refSet ((sbInit memInit).2.bufRef 0) = {0}) :=
  claim_C10_selfref_empty.2.2.2.2.2.2.2 (sbInit memInit).2 0
    (claim_C10_selfref_empty.2.1 memInit claim_C10_selfref_empty.1) (by decide)

/-- Buffer heap of the C3 scenario: one fresh `SampleBuffer` per port
(handles 0, 1, 2 from the three `IO.__init__` calls), the external array
`[1,2,3,4]` (array key 0) and the `from_array` buffer holding it (handle
3), mirroring `NoiseSource(...).generate()` in the data-pushing
example. -/
def c3mem : BufMem :=
  let m1 := (sbInit memInit).2
  let m2 := (sbInit m1).2
  let m3 := (sbInit m2).2
  let am := allocArray m3 (ArrData.data [1, 2, 3, 4])
  (from_array am.2 am.1).2

/-- Ports of the C3 scenario: 0 = Input I1, 1 = Input I2, 2 = Output O1,
all disconnected, each owning its fresh buffer handle. -/
def c3s0 : SysState :=
  { g := { kind := fun p => if p = 2 then IOKind.output else IOKind.input
           conns := fun _ => ∅ }
    mem := c3mem
    pbuf := fun p => p
    pstate := fun _ => bufstateEmpty
    plabel := fun p => if p = 0 then "i1" else if p = 1 then "i2" else "o1" }

/-- The C3 run: `connect(O1, I1)`, `connect(I1, I2)` (transitively wiring
O1 to I2), `O1.load([1,2,3,4])`, `O1.flush()`, then
`I1.buffer.prepare_to_modify()`, `I1.read()` and `I2.read()`.  The first
list collects array identities (heap keys): I1's and I2's buffer array
after the flush, the same after the prepare, and the two arrays returned
by the reads.  The second list collects the corresponding array values,
the two read results evaluated in the final heap. -/
def c3run : Option (List (Option Nat) × List (Option ArrData)) :=
  ((connectS c3s0 2 0).bind fun s1 =>
    (connectS s1 0 1).map fun s2 =>
      let s3 := load s2 2 3
      let s4 := flush s3 2
      let s5 := { s4 with mem := prepare_to_modify s4.mem (s4.pbuf 0) }
      let r1 := read s5 0
      let r2 := read r1.2 1
      let mF := r2.2.mem
      ([s4.mem.bufArr (s4.pbuf 0), s4.mem.bufArr (s4.pbuf 1),
        s5.mem.bufArr (s5.pbuf 0), s5.mem.bufArr (s5.pbuf 1), r1.1, r2.1],
       [portVal s4 0, portVal s4 1, portVal s5 0, portVal s5 1,
        r1.1.map mF.arrData, r2.1.map mF.arrData])).toOption

/-- C3: in the transitive scenario (`connect(O1,I1)`, `connect(I1,I2)`,
load `[1,2,3,4]` into O1, flush), both Inputs' buffers reference the
identical underlying array (heap key 0) and are value-equal to it; after
I1's buffer undergoes `prepare_to_modify` (the first step of `read()`),
I1 references a fresh array (key 1) while I2 still references key 0 —
value-equal but no longer identity-equal; the two `read()` calls then
return distinct arrays (keys 1 and 2), each value-equal to `[1,2,3,4]`,
so mutating the array returned by I1's read cannot alter what I2
subsequently reads. -/
theorem claim_C3_copy_on_write :
    c3run = some
      ([some 0, some 0, some 1, some 0, some 1, some 2],
       [some (ArrData.data [1, 2, 3, 4]), some (ArrData.data [1, 2, 3, 4]),
        some (ArrData.data [1, 2, 3, 4]), some (ArrData.data [1, 2, 3, 4]),
        some (ArrData.data [1, 2, 3, 4]), some (ArrData.data [1, 2, 3, 4])]) := by
  decide

/-- Buffer heap of the C7 scenario: fresh buffers for ports 0, 1 and 3
(handles 0, 1, 2), plus two loaded source buffers: handle 3 holding array
0 = `[5]` and handle 4 holding array 1 = `[7]`. -/
def c7mem : BufMem :=
  let m1 := (sbInit memInit).2
  let m2 := (sbInit m1).2
  let m3 := (sbInit m2).2
  let a1 := allocArray m3 (ArrData.data [5])
  let m4 := (from_array a1.2 a1.1).2
  let a2 := allocArray m4 (ArrData.data [7])
  (from_array a2.2 a2.1).2

/-- Ports of the C7 scenario: 0 = owned Input, 1 = owned Output, 3 = an
external Input belonging to a downstream device. -/
def c7s0 : SysState :=
  { g := { kind := fun p => if p = 1 then IOKind.output else IOKind.input
           conns := fun _ => ∅ }
    mem := c7mem
    pbuf := fun p => if p = 3 then 2 else p
    pstate := fun _ => bufstateEmpty
    plabel := fun _ => "p" }

/-- The device under tick in the C7 scenario: a leaf owning the Input 0
and the Output 1. -/
def c7dev : DeviceT :=
  DeviceT.mk "Device" "dev" [0, 1] []

/-- The C7 run: connect the Output 1 to the external Input 3, load `[5]`
into Input 0 (state Filled) and `[7]` into Output 1 (state ReadyToPush),
then `tick()` the device once; observe the states of ports 0, 1, 3 and
the value delivered to port 3. -/
def c7run : Option (Nat × Nat × Nat × Option ArrData) :=
  ((connectS c7s0 1 3).map fun s1 =>
    let s2 := load (load s1 0 3) 1 4
    let s3 := tickDev s2 c7dev
    (s3.pstate 0, s3.pstate 1, s3.pstate 3, portVal s3 3)).toOption

/-- C7: `Device.tick` is exactly the composition of the three ordered
phases — drain every port whose state is currently Filled, run
`process()` (which ticks each subdevice in insertion order), and only
afterwards tick every port whose state is currently ReadyToPush.  On the
concrete scenario the tick drains the Filled Input (state becomes Empty)
and flushes the ReadyToPush Output: the Output empties and its buffer
`[7]` is pushed into the connected external port, which ends Filled. -/
theorem claim_C7_tick_phases :
    (∀ (s : SysState) (cls label : String) (ios : List Nat) (subs : List DeviceT),
        tickDev s (DeviceT.mk cls label ios subs)
          = flushPhase (processDev (drainPhase s ios) subs) ios)
    ∧ (∀ (s : SysState) (d : DeviceT) (rest : List DeviceT),
        processDev s (d :: rest) = processDev (tickDev s d) rest)
    ∧ c7run = some (bufstateEmpty, bufstateEmpty, bufstateFilled,
        some (ArrData.data [7])) := by
  refine ⟨?_, ?_, ?_⟩
  · intro s cls label ios subs
    rw [tickDev, drainPhase, flushPhase]
  · intro s d rest
    rw [processDev]
  · decide

/-- The well-formed, version-compatible patch of the C5 failing input:
all four required fields with the documented types and the current
version string. -/
def wfPatch : List (String × PVal) :=
  [("version", PVal.pstr plappyVersion),
   ("schema", PVal.pstr "plappy"),
   ("name", PVal.pstr "n"),
   ("tree", PVal.pdict
     [("class", PVal.pcls "Device"), ("label", PVal.pstr "d"),
      ("subdevices", PVal.plist []), ("ios", PVal.plist [])])]

theorem validate_patch_always_fails (patch : List (String × PVal)) :
    validate_patch patch
      [("version", PyType.str), ("schema", PyType.str),
       ("name", PyType.str), ("tree", PyType.dict)]
    = Except.error (PyErr.patchErr PErr.invalidPatch) := by
  rw [validate_patch]
  have hcp : checkProps patch
      [("version", PyType.str), ("schema", PyType.str),
       ("name", PyType.str), ("tree", PyType.dict)]
      = Except.error (PyErr.patchErr PErr.invalidPatch) := by
    by_cases h1 : hasKey patch "version" = false
    · simp [checkProps, h1]
    · by_cases h2 : hasKey patch "schema" = false
      · simp [checkProps, h1, h2, keyType]
      · by_cases h3 : hasKey patch "name" = false
        · simp [checkProps, h1, h2, h3, keyType]
        · by_cases h4 : hasKey patch "tree" = false
          · simp [checkProps, h1, h2, h3, h4, keyType]
          · simp [checkProps, h1, h2, h3, h4, keyType]
  rw [hcp]
  rfl

/-- C5: `parse_patch` rejects every patch with a `PatchError`
(`InvalidPatchError` is a `PatchError` subclass): a missing required
top-level field fails its presence check, and any patch containing all
four required fields fails the type check of `tree` — `validate_patch`
compares the type of the key name (always `str`) instead of the type of
the value, so even the well-formed, version-compatible patch `wfPatch` is
rejected instead of being accepted.  Validation runs first, so on error
no device is built (the error result carries no device). -/
theorem claim_C5_validate_rejects_everything :
    (∀ patch, parse_patch patch = Except.error (PyErr.patchErr PErr.invalidPatch))
    ∧ errOf (parse_patch wfPatch) = some (PyErr.patchErr PErr.invalidPatch) := by
  constructor
  · intro patch
    rw [parse_patch]
    rw [validate_patch_always_fails patch]
    rfl
  · decide

/-- Ports of the C4 scenario: 0 = Output "o", 1 = Input "i', owned by a
single device; buffers are irrelevant to the patch format. -/
def c4s0 : SysState :=
  { g := { kind := fun p => if p = 0 then IOKind.output else IOKind.input
           conns := fun _ => ∅ }
    mem := (sbInit (sbInit memInit).2).2
    pbuf := fun p => p
    pstate := fun _ => bufstateEmpty
    plabel := fun p => if p = 0 then "o" else "i" }

/-- The device tree of the C4 scenario: one device owning the connected
Output and Input. -/
def c4dev : DeviceT :=
  DeviceT.mk "Device" "main" [0, 1] []

/-- C4: the export/import round trip cannot reproduce any device tree.
`make_connections` is a stub (`pass`) that re-establishes nothing, and
`parse_patch` rejects every patch outright: on the concrete tree with one
Output connected to one Input (the connection holds, first observation),
re-importing its export raises `InvalidPatchError` instead of producing
an identical tree. -/
theorem claim_C4_round_trip_broken :
    (∀ (d : DeviceV) (c : Finset (Finset String)), make_connections d c = d)
    ∧ (connectS c4s0 0 1).toOption.map
        (fun s => (connected s.g 0 1, errOf (parse_patch (exportPatch s c4dev))))
      = some (true, some (PyErr.patchErr PErr.invalidPatch)) := by
  refine ⟨fun d c => rfl, ?_⟩
  decide

end Plappy
